import Mathlib

/-!
Verification of the launch-configuration resolver in
`src/distar/bin/play.py` (the `main` function).

The resolver is embedded shallowly: command-line arguments become an
`Args` record, the ambient process state (environment variables,
platform, filesystem probes, accelerator availability, the black-box
base configuration read from `user_config.yaml`) becomes a `World`
record, and `main` becomes the pure function `mainRun : World → Args →
Except Err UserConfig` returning either the exception raised or the
configuration handed to `Actor`.
-/

namespace Applestar

/-- Valid values of the `--game_type` argument (argparse `choices`). -/
inductive GameType where
  | agent_vs_agent
  | agent_vs_bot
  | human_vs_agent
deriving DecidableEq

/-- Valid values of the `--race` argument (argparse `choices`). -/
inductive Race where
  | zerg
  | protoss
  | terran
deriving DecidableEq

/-- The race argument as the string argparse delivers. -/
def raceStr : Race → String
  | .zerg => "zerg"
  | .protoss => "protoss"
  | .terran => "terran"

/-- Parsed command-line arguments of `play.py`.  `none` for a model slot
means the flag was not given (argparse default `None`). -/
structure Args where
  model1 : Option String
  model2 : Option String
  cpu : Bool
  game_type : GameType
  race : Race
deriving DecidableEq

/-- The `actor` section of the user configuration (the fields `main`
reads or writes).  `model_paths1` and `model_paths2` are the entries of
the `model_paths` mapping. -/
structure ActorConfig where
  job_type : String
  episode_num : Nat
  model_paths1 : String
  model_paths2 : String
  use_mps : Bool
  use_cuda : Bool
  device : String
  player_ids : List String
deriving DecidableEq

/-- The `env` section of the user configuration. -/
structure EnvConfig where
  realtime : Bool
  races : List String
  player_ids : List String
deriving DecidableEq

/-- The `common` section of the user configuration. -/
structure CommonConfig where
  type : String
deriving DecidableEq

/-- The configuration structure threaded through `main` and finally
handed to `Actor`. -/
structure UserConfig where
  actor : ActorConfig
  env : EnvConfig
  common : CommonConfig
deriving DecidableEq

/-- Ambient process state observed by `main`:
`sc2pathVar` is the raw `SC2PATH` environment variable (`none` = unset);
`platformDarwin` is `sys.platform == "darwin"`;
`isDir` and `pathExists` are the filesystem probes `os.path.isdir` and
`os.path.exists`; `mpsAvailable` and `cudaAvailable` are
`torch.backends.mps.is_available()` and `torch.cuda.is_available()`;
`scriptDir` is `os.path.dirname(__file__)`; `baseConfig` is the
black-box result of `read_config(user_config.yaml)`. -/
structure World where
  sc2pathVar : Option String
  platformDarwin : Bool
  isDir : String → Bool
  pathExists : String → Bool
  mpsAvailable : Bool
  cudaAvailable : Bool
  scriptDir : String
  baseConfig : UserConfig

/-- The exceptions `main` can raise, by site:
`environmentNotFound` = the two `EnvironmentError` raises,
`invalidEnvironmentPath` = the `NotADirectoryError` raise,
`modelNotFound` = the two `FileNotFoundError` raises (slot and path),
`raceIndexError` = the `IndexError` Python raises on
`races[1] = ...` when the base configuration's `races` list has fewer
than two entries. -/
inductive Err where
  | environmentNotFound
  | invalidEnvironmentPath (path : String)
  | modelNotFound (slot : String) (path : String)
  | raceIndexError
deriving DecidableEq

/-- `os.environ.get("SC2PATH", "")`: the variable's value, `""` when unset. -/
def sc2Str (w : World) : String := w.sc2pathVar.getD ""

/-- The mac default install location probed by `main`. -/
def macDefaultSC2 : String := "/Applications/StarCraft II"

/-- Environment locator (play.py lines 85-106): empty/unset `SC2PATH`
falls back to the mac default when on darwin and that directory exists,
else raises `EnvironmentError`; a set `SC2PATH` that is not a directory
raises `NotADirectoryError`.  On success returns the effective path
(also written back into `os.environ`). -/
def locateEnv (w : World) : Except Err String :=
  if sc2Str w = "" then
    if w.platformDarwin = true then
      if w.isDir macDefaultSC2 = true then .ok macDefaultSC2
      else .error .environmentNotFound
    else .error .environmentNotFound
  else
    if w.isDir (sc2Str w) = true then .ok (sc2Str w)
    else .error (.invalidEnvironmentPath (sc2Str w))

/-- Boolean success test for an `Except` result. -/
def exOk {α : Type} : Except Err α → Bool
  | .ok _ => true
  | .error _ => false

/-- The device selection triple (`device`, `use_mps`, `use_cuda`). -/
structure DeviceSel where
  device : String
  use_mps : Bool
  use_cuda : Bool
deriving DecidableEq

/-- Accelerator selection (play.py lines 121-142): `--cpu` forces CPU
without probing; otherwise MPS, then CUDA, then CPU. -/
def selectDevice (cpu mps cuda : Bool) : DeviceSel :=
  if cpu = true then ⟨"cpu", false, false⟩
  else if mps = true then ⟨"mps", true, false⟩
  else if cuda = true then ⟨"cuda", false, true⟩
  else ⟨"cpu", false, false⟩

/-- POSIX `os.path.join` restricted to two components, as used by
`play.py` (an absolute second component discards the first). -/
def ospJoin (a b : String) : String :=
  if b.data.head? = some '/' then b
  else if a.data = [] then b
  else if a.data.getLast? = some '/' then a ++ b
  else a ++ "/" ++ b

/-- `default_model_path` (play.py line 145). -/
def defaultModelPath (scriptDir : String) : String :=
  ospJoin scriptDir "rl_model.pth"

/-- One model slot's resolution (play.py lines 147-163): a CLI-supplied
name is joined to the script directory with `.pth` appended and written
first; then the current value is compared against the sentinel
`"default"` and replaced by `default_model_path` on a match. -/
def resolveModel (scriptDir : String) (arg : Option String) (existing : String) : String :=
  let v := match arg with
    | some name => ospJoin scriptDir (name ++ ".pth")
    | none => existing
  if v = "default" then defaultModelPath scriptDir else v

/-- The resolved `model1` local variable of `main`. -/
def resolvedModel1 (w : World) (a : Args) : String :=
  resolveModel w.scriptDir a.model1 w.baseConfig.actor.model_paths1

/-- The resolved `model2` local variable of `main`. -/
def resolvedModel2 (w : World) (a : Args) : String :=
  resolveModel w.scriptDir a.model2 w.baseConfig.actor.model_paths2

/-- Last path component: the characters after the final slash
(`os.path.basename`). -/
def lastComponent (p : String) : String :=
  String.mk ((p.data.reverse.takeWhile (fun ch => ch ≠ '/')).reverse)

/-- Characters before the first dot: the code's `basename.split(".")[0]`. -/
def stemOf (s : String) : String :=
  String.mk (s.data.takeWhile (fun ch => ch ≠ '.'))

/-- List-of-characters prefix test. -/
def hasPrefixL : List Char → List Char → Bool
  | [], _ => true
  | _ :: _, [] => false
  | p :: ps, x :: xs => p == x && hasPrefixL ps xs

/-- List-of-characters substring occurrence test. -/
def containsL (pat : List Char) : List Char → Bool
  | [] => pat.isEmpty
  | x :: xs => hasPrefixL pat (x :: xs) || containsL pat xs

/-- Python's substring test `sub in s`. -/
def strContains (s sub : String) : Bool := containsL sub.data s.data

/-- The `bot_level` computation (play.py lines 183-185): default
`"bot10"`, replaced by the raw `--model2` string when that argument is
truthy (given and nonempty) and contains `"bot"`. -/
def botLevel (arg : Option String) : String :=
  match arg with
  | none => "bot10"
  | some s => if (s ≠ "" && strContains s "bot") = true then s else "bot10"

/-- The unconditional overrides of `main` (play.py lines 113-119):
job type, common type, episode number, realtime, and the early
`use_cuda = False` write. -/
def baseOverride (b : UserConfig) : UserConfig :=
  { b with
    actor := { b.actor with job_type := "eval_test", episode_num := 1, use_cuda := false },
    common := { b.common with type := "play" },
    env := { b.env with realtime := true } }

/-- Write the selected device triple into the configuration. -/
def applyDevice (c : UserConfig) (s : DeviceSel) : UserConfig :=
  { c with actor := { c.actor with device := s.device, use_mps := s.use_mps, use_cuda := s.use_cuda } }

/-- Write the two resolved model paths into the configuration. -/
def applyModels (c : UserConfig) (m1 m2 : String) : UserConfig :=
  { c with actor := { c.actor with model_paths1 := m1, model_paths2 := m2 } }

/-- The race override (play.py line 172): writes index 1 of
`env.races`, nothing else. -/
def applyRace (c : UserConfig) (r : Race) : UserConfig :=
  { c with env := { c.env with races := c.env.races.set 1 (raceStr r) } }

/-- The game-type branch (play.py lines 176-195), with `m1` and `m2`
the resolved model paths. -/
def applyGameType (c : UserConfig) (a : Args) (m1 m2 : String) : UserConfig :=
  match a.game_type with
  | .agent_vs_agent =>
    { c with env := { c.env with
        player_ids := [stemOf (lastComponent m1), stemOf (lastComponent m2)] } }
  | .agent_vs_bot =>
    { c with
      actor := { c.actor with player_ids := ["model1"] },
      env := { c.env with
        player_ids := [stemOf (lastComponent m1), botLevel a.model2] } }
  | .human_vs_agent =>
    { c with
      actor := { c.actor with player_ids := ["model1"] },
      env := { c.env with
        player_ids := [stemOf (lastComponent m1), "human"] } }

/-- The configuration `main` hands to `Actor` when no exception is
raised, assembled in program order. -/
def assemble (w : World) (a : Args) : UserConfig :=
  let c1 := applyDevice (baseOverride w.baseConfig)
    (selectDevice a.cpu w.mpsAvailable w.cudaAvailable)
  let m1 := resolvedModel1 w a
  let m2 := resolvedModel2 w a
  applyGameType (applyRace (applyModels c1 m1 m2) a.race) a m1 m2

/-- The whole of `main` (play.py lines 45-199) as a function from the
ambient state and arguments to either the first exception raised or the
configuration handed to `Actor`.  Failure sites in program order:
environment location, the `model1` existence check, the `model2`
existence check, and the `races[1]` write. -/
def mainRun (w : World) (a : Args) : Except Err UserConfig :=
  match locateEnv w with
  | .error e => .error e
  | .ok _ =>
    let m1 := resolvedModel1 w a
    let m2 := resolvedModel2 w a
    if w.pathExists m1 = false then .error (.modelNotFound "model1" m1)
    else if w.pathExists m2 = false then .error (.modelNotFound "model2" m2)
    else if w.baseConfig.env.races.length < 2 then .error .raceIndexError
    else .ok (assemble w a)

/-- The configurations `Actor` is constructed-and-run with: one when
`main` completes, none when it raises. -/
def actorInvocations (w : World) (a : Args) : List UserConfig :=
  match mainRun w a with
  | .ok c => [c]
  | .error _ => []

/-! Concrete fixtures used by counterexamples and witnesses. -/

/-- A base configuration whose model slots hold the sentinel `"default"`. -/
def bDef : UserConfig :=
  { actor := { job_type := "j", episode_num := 0, model_paths1 := "default",
               model_paths2 := "default", use_mps := true, use_cuda := true,
               device := "mps", player_ids := [] },
    env := { realtime := false, races := ["zerg", "zerg"], player_ids := [] },
    common := { type := "t" } }

/-- A base configuration whose model slots hold concrete paths. -/
def bConc : UserConfig :=
  { actor := { job_type := "j", episode_num := 0, model_paths1 := "/m1.pth",
               model_paths2 := "/m2.pth", use_mps := true, use_cuda := true,
               device := "mps", player_ids := [] },
    env := { realtime := false, races := ["zerg", "zerg"], player_ids := [] },
    common := { type := "t" } }

/-- A world where every resolution step succeeds. -/
def wOk : World :=
  { sc2pathVar := some "/sc2", platformDarwin := false,
    isDir := fun _ => true, pathExists := fun _ => true,
    mpsAvailable := false, cudaAvailable := false,
    scriptDir := "/app", baseConfig := bDef }

/-- `wOk` with concrete base model paths. -/
def wConc : World := { wOk with baseConfig := bConc }

/-- `wOk` with no file existing: every model existence check fails. -/
def wMiss : World := { wOk with pathExists := fun _ => false }

/-- A non-darwin world with `SC2PATH` unset. -/
def wNoPath : World := { wOk with sc2pathVar := none }

/-- Arguments: all defaults plus `--cpu` (game type `human_vs_agent`). -/
def aNone : Args :=
  { model1 := none, model2 := none, cpu := true,
    game_type := .human_vs_agent, race := .zerg }

/-- Arguments: `--cpu --game_type agent_vs_bot --model2 bot7`. -/
def aBot : Args :=
  { model1 := none, model2 := some "bot7", cpu := true,
    game_type := .agent_vs_bot, race := .zerg }

/-- The configuration `mainRun wConc aNone` delivers. -/
def cCpu : UserConfig :=
  { actor := { job_type := "eval_test", episode_num := 1,
               model_paths1 := "/m1.pth", model_paths2 := "/m2.pth",
               use_mps := false, use_cuda := false, device := "cpu",
               player_ids := ["model1"] },
    env := { realtime := true, races := ["zerg", "zerg"],
             player_ids := ["m1", "human"] },
    common := { type := "play" } }

/-- The configuration `mainRun wOk aNone` delivers. -/
def cHuman : UserConfig :=
  { actor := { job_type := "eval_test", episode_num := 1,
               model_paths1 := "/app/rl_model.pth", model_paths2 := "/app/rl_model.pth",
               use_mps := false, use_cuda := false, device := "cpu",
               player_ids := ["model1"] },
    env := { realtime := true, races := ["zerg", "zerg"],
             player_ids := ["rl_model", "human"] },
    common := { type := "play" } }

/-- The configuration `mainRun wOk aBot` delivers. -/
def cBot : UserConfig :=
  { actor := { job_type := "eval_test", episode_num := 1,
               model_paths1 := "/app/rl_model.pth", model_paths2 := "/app/bot7.pth",
               use_mps := false, use_cuda := false, device := "cpu",
               player_ids := ["model1"] },
    env := { realtime := true, races := ["zerg", "zerg"],
             player_ids := ["rl_model", "bot7"] },
    common := { type := "play" } }

/-! Helper lemmas about the string operations. -/

theorem data_append (a b : String) : (a ++ b).data = a.data ++ b.data := rfl

theorem string_eq_of_data (x y : String) (h : x.data = y.data) : x = y := by
  cases x
  cases y
  exact congrArg String.mk h

/-- Every branch of `ospJoin a b` keeps the characters of `b`. -/
theorem dot_mem_ospJoin (a b : String) (h : '.' ∈ b.data) :
    '.' ∈ (ospJoin a b).data := by
  unfold ospJoin
  by_cases h1 : b.data.head? = some '/'
  · simpa [h1] using h
  · by_cases h2 : a.data = []
    · simpa [h1, h2] using h
    · by_cases h3 : a.data.getLast? = some '/'
      · simp only [h1, h2, h3, if_neg, if_pos, if_true, if_false]
        simp only [data_append, List.mem_append]
        exact Or.inr h
      · simp only [h1, h2, h3, if_neg, if_pos, if_true, if_false]
        simp only [data_append, List.mem_append]
        exact Or.inr h

/-- A join whose right component contains a dot is never the sentinel
`"default"`. -/
theorem ospJoin_ne_default (a b : String) (h : '.' ∈ b.data) :
    ospJoin a b ≠ "default" := by
  intro he
  have hd : '.' ∈ (ospJoin a b).data := dot_mem_ospJoin a b h
  rw [he] at hd
  revert hd
  decide

theorem pth_has_dot (n : String) : '.' ∈ (n ++ ".pth").data := by
  rw [data_append]
  exact List.mem_append.mpr (Or.inr (by decide))

/-- `ospJoin` with a fixed left component is injective on relative
right components. -/
theorem ospJoin_right_injective (a x y : String)
    (hx : x.data.head? ≠ some '/') (hy : y.data.head? ≠ some '/')
    (hne : x ≠ y) : ospJoin a x ≠ ospJoin a y := by
  intro he
  apply hne
  unfold ospJoin at he
  rw [if_neg hx, if_neg hy] at he
  by_cases h2 : a.data = []
  · rw [if_pos h2, if_pos h2] at he
    exact he
  · rw [if_neg h2, if_neg h2] at he
    by_cases h3 : a.data.getLast? = some '/'
    · rw [if_pos h3, if_pos h3] at he
      have := congrArg String.data he
      rw [data_append, data_append] at this
      exact string_eq_of_data x y (List.append_cancel_left this)
    · rw [if_neg h3, if_neg h3] at he
      have := congrArg String.data he
      rw [data_append, data_append] at this
      exact string_eq_of_data x y (List.append_cancel_left this)

/-! Helper lemmas about `mainRun` and `assemble`. -/

/-- Inversion for successful runs: `main` reaches `Actor` exactly when
environment location succeeds, both resolved model paths exist, and the
base `races` list admits the index-1 write; the delivered configuration
is `assemble`. -/
theorem mainRun_ok_iff (w : World) (a : Args) (c : UserConfig) :
    mainRun w a = .ok c ↔
      (exOk (locateEnv w) = true ∧
       w.pathExists (resolvedModel1 w a) = true ∧
       w.pathExists (resolvedModel2 w a) = true ∧
       2 ≤ w.baseConfig.env.races.length ∧
       c = assemble w a) := by
  unfold mainRun
  cases h : locateEnv w with
  | error e => simp [exOk, h]
  | ok p =>
    cases h1 : w.pathExists (resolvedModel1 w a) with
    | false => simp [exOk, h, h1]
    | true =>
      cases h2 : w.pathExists (resolvedModel2 w a) with
      | false => simp [exOk, h, h1, h2]
      | true =>
        by_cases h3 : w.baseConfig.env.races.length < 2
        · have hle : ¬ 2 ≤ w.baseConfig.env.races.length := by omega
          simp [exOk, h, h1, h2, h3, hle]
        · have hle : 2 ≤ w.baseConfig.env.races.length := by omega
          simp [exOk, h, h1, h2, h3, hle, eq_comm]

/-- First failing existence check: a missing `model1` path aborts with
the `model1` error (given the environment locator succeeded). -/
theorem mainRun_err_model1 (w : World) (a : Args)
    (henv : exOk (locateEnv w) = true)
    (h1 : w.pathExists (resolvedModel1 w a) = false) :
    mainRun w a = .error (.modelNotFound "model1" (resolvedModel1 w a)) := by
  unfold mainRun
  cases h : locateEnv w with
  | error e => rw [h] at henv; simp [exOk] at henv
  | ok p => simp [h1]

/-- Second failing existence check: with `model1` present, a missing
`model2` path aborts with the `model2` error. -/
theorem mainRun_err_model2 (w : World) (a : Args)
    (henv : exOk (locateEnv w) = true)
    (h1 : w.pathExists (resolvedModel1 w a) = true)
    (h2 : w.pathExists (resolvedModel2 w a) = false) :
    mainRun w a = .error (.modelNotFound "model2" (resolvedModel2 w a)) := by
  unfold mainRun
  cases h : locateEnv w with
  | error e => rw [h] at henv; simp [exOk] at henv
  | ok p => simp [h1, h2]

theorem assemble_actor_device (w : World) (a : Args) :
    (assemble w a).actor.device = (selectDevice a.cpu w.mpsAvailable w.cudaAvailable).device := by
  unfold assemble applyGameType applyRace applyModels applyDevice baseOverride
  cases a.game_type <;> rfl

theorem assemble_actor_use_mps (w : World) (a : Args) :
    (assemble w a).actor.use_mps = (selectDevice a.cpu w.mpsAvailable w.cudaAvailable).use_mps := by
  unfold assemble applyGameType applyRace applyModels applyDevice baseOverride
  cases a.game_type <;> rfl

theorem assemble_actor_use_cuda (w : World) (a : Args) :
    (assemble w a).actor.use_cuda = (selectDevice a.cpu w.mpsAvailable w.cudaAvailable).use_cuda := by
  unfold assemble applyGameType applyRace applyModels applyDevice baseOverride
  cases a.game_type <;> rfl

theorem assemble_actor_model_paths1 (w : World) (a : Args) :
    (assemble w a).actor.model_paths1 = resolvedModel1 w a := by
  unfold assemble applyGameType applyRace applyModels applyDevice baseOverride
  cases a.game_type <;> rfl

theorem assemble_actor_model_paths2 (w : World) (a : Args) :
    (assemble w a).actor.model_paths2 = resolvedModel2 w a := by
  unfold assemble applyGameType applyRace applyModels applyDevice baseOverride
  cases a.game_type <;> rfl

theorem assemble_env_races (w : World) (a : Args) :
    (assemble w a).env.races = w.baseConfig.env.races.set 1 (raceStr a.race) := by
  unfold assemble applyGameType applyRace applyModels applyDevice baseOverride
  cases a.game_type <;> rfl

theorem assemble_player_ids_agent_vs_agent (w : World) (a : Args)
    (hg : a.game_type = .agent_vs_agent) :
    (assemble w a).env.player_ids =
      [stemOf (lastComponent (resolvedModel1 w a)),
       stemOf (lastComponent (resolvedModel2 w a))] := by
  unfold assemble applyGameType applyRace applyModels applyDevice baseOverride
  rw [hg]

theorem assemble_player_ids_agent_vs_bot (w : World) (a : Args)
    (hg : a.game_type = .agent_vs_bot) :
    (assemble w a).env.player_ids =
      [stemOf (lastComponent (resolvedModel1 w a)), botLevel a.model2] := by
  unfold assemble applyGameType applyRace applyModels applyDevice baseOverride
  rw [hg]

theorem assemble_player_ids_human_vs_agent (w : World) (a : Args)
    (hg : a.game_type = .human_vs_agent) :
    (assemble w a).env.player_ids =
      [stemOf (lastComponent (resolvedModel1 w a)), "human"] := by
  unfold assemble applyGameType applyRace applyModels applyDevice baseOverride
  rw [hg]

/-- A CLI-supplied model name always resolves to the joined `.pth`
path: the sentinel comparison never fires on it. -/
theorem resolveModel_some (d name v : String) :
    resolveModel d (some name) v = ospJoin d (name ++ ".pth") := by
  simp [resolveModel, ospJoin_ne_default d (name ++ ".pth") (pth_has_dot name)]

/-- The CLI name `"default"` in particular resolves to `default.pth`. -/
theorem resolveModel_some_default (d v : String) :
    resolveModel d (some "default") v = ospJoin d "default.pth" :=
  resolveModel_some d "default" v

/-- With no CLI override, the sentinel is replaced by the default path. -/
theorem resolveModel_none_default (d : String) :
    resolveModel d none "default" = defaultModelPath d := by
  simp [resolveModel]

/-- With no CLI override, a non-sentinel value is kept. -/
theorem resolveModel_none_keep (d v : String) (h : v ≠ "default") :
    resolveModel d none v = v := by
  simp [resolveModel, h]

/-- Resolution output is never the sentinel, so re-resolving it with no
CLI argument is the identity. -/
theorem resolveModel_idem (d : String) (arg : Option String) (v : String) :
    resolveModel d none (resolveModel d arg v) = resolveModel d arg v := by
  cases arg with
  | some name =>
    rw [resolveModel_some d name v]
    exact resolveModel_none_keep d _ (ospJoin_ne_default d (name ++ ".pth") (pth_has_dot name))
  | none =>
    by_cases h : v = "default"
    · subst h
      rw [resolveModel_none_default d]
      exact resolveModel_none_keep d _
        (ospJoin_ne_default d "rl_model.pth" (by decide))
    · rw [resolveModel_none_keep d v h, resolveModel_none_keep d v h]

/-! Claim theorems. -/

/-- C1: accelerator selection is a total function of the explicit CPU
flag and the two backend availabilities: `--cpu` forces device `cpu`
independently of any probing; otherwise the device is `mps` when the
Metal backend is available, else `cuda` when the CUDA backend is
available, else `cpu`; the selected device is always exactly one of
cpu/mps/cuda, selection never fails, and the device `main` hands to
`Actor` is exactly the selected one. -/
theorem C1_accelerator_selection (cpu mps cuda : Bool) :
    (cpu = true → selectDevice cpu mps cuda = ⟨"cpu", false, false⟩) ∧
    (cpu = false → mps = true → (selectDevice cpu mps cuda).device = "mps") ∧
    (cpu = false → mps = false → cuda = true →
      (selectDevice cpu mps cuda).device = "cuda") ∧
    (cpu = false → mps = false → cuda = false →
      (selectDevice cpu mps cuda).device = "cpu") ∧
    ((selectDevice cpu mps cuda).device = "cpu" ∨
      (selectDevice cpu mps cuda).device = "mps" ∨
      (selectDevice cpu mps cuda).device = "cuda") ∧
    (∀ mps2 cuda2, selectDevice true mps cuda = selectDevice true mps2 cuda2) ∧
    (∀ w a c, mainRun w a = .ok c →
      c.actor.device = (selectDevice a.cpu w.mpsAvailable w.cudaAvailable).device) := by
  refine ⟨?_, ?_, ?_, ?_, ?_, ?_, ?_⟩
  · intro h; subst h; rfl
  · intro h1 h2; subst h1; subst h2; rfl
  · intro h1 h2 h3; subst h1; subst h2; subst h3; rfl
  · intro h1 h2 h3; subst h1; subst h2; subst h3; rfl
  · cases cpu <;> cases mps <;> cases cuda <;> simp [selectDevice]
  · intro mps2 cuda2; rfl
  · intro w a c h
    have hc := (mainRun_ok_iff w a c).mp h
    rw [hc.2.2.2.2, assemble_actor_device]

/-- Witness for C1 at a concrete input. -/
theorem C1_accelerator_selection_witness :
    selectDevice true true true = ⟨"cpu", false, false⟩ :=
  (C1_accelerator_selection true true true).1 rfl

/-- C2 counterexample: on a successful `--cpu` run both `use_mps` and
`use_cuda` are false, so it is not the case that exactly one of the two
backend flags is true. -/
theorem C2_counterexample :
    mainRun wConc aNone = .ok cCpu ∧
    cCpu.actor.device = "cpu" ∧
    ¬ ((cCpu.actor.use_mps = true ∧ cCpu.actor.use_cuda = false) ∨
       (cCpu.actor.use_mps = false ∧ cCpu.actor.use_cuda = true)) :=
  ⟨rfl, rfl, by decide⟩

/-- C2 (amended): at assembly time at most one of `use_mps` and
`use_cuda` is true — both are false exactly when the device is cpu —
and the `device` field agrees with the flags: `mps` iff `use_mps`,
`cuda` iff `use_cuda`, `cpu` iff neither. -/
theorem C2_device_flags_agree (w : World) (a : Args) (c : UserConfig)
    (h : mainRun w a = .ok c) :
    (¬ (c.actor.use_mps = true ∧ c.actor.use_cuda = true)) ∧
    (c.actor.device = "mps" ↔ c.actor.use_mps = true) ∧
    (c.actor.device = "cuda" ↔ c.actor.use_cuda = true) ∧
    (c.actor.device = "cpu" ↔
      (c.actor.use_mps = false ∧ c.actor.use_cuda = false)) := by
  have hc := (mainRun_ok_iff w a c).mp h
  rw [hc.2.2.2.2, assemble_actor_device, assemble_actor_use_mps, assemble_actor_use_cuda]
  cases ha : a.cpu <;> cases hm : w.mpsAvailable <;> cases hcu : w.cudaAvailable <;>
    simp [selectDevice]

/-- Witness for the amended C2 at a concrete input. -/
theorem C2_device_flags_agree_witness :
    cCpu.actor.device = "cpu" ↔
      (cCpu.actor.use_mps = false ∧ cCpu.actor.use_cuda = false) :=
  (C2_device_flags_agree wConc aNone cCpu rfl).2.2.2

/-- C3: the environment locator raises `EnvironmentNotFound` exactly
when `SC2PATH` is unset or empty and the platform is not darwin or the
darwin default install directory is missing; it raises
`InvalidEnvironmentPath` (carrying exactly the supplied path) exactly
when `SC2PATH` is set to a non-directory, on every platform; and it has
no other failure mode. -/
theorem C3_environment_locator (w : World) :
    (locateEnv w = .error .environmentNotFound ↔
      (sc2Str w = "" ∧
        (w.platformDarwin = false ∨ w.isDir macDefaultSC2 = false))) ∧
    (locateEnv w = .error (.invalidEnvironmentPath (sc2Str w)) ↔
      (sc2Str w ≠ "" ∧ w.isDir (sc2Str w) = false)) ∧
    (∀ p, locateEnv w = .error (.invalidEnvironmentPath p) → p = sc2Str w) ∧
    (exOk (locateEnv w) = true ∨ locateEnv w = .error .environmentNotFound ∨
      locateEnv w = .error (.invalidEnvironmentPath (sc2Str w))) := by
  refine ⟨?_, ?_, ?_, ?_⟩
  · unfold locateEnv
    by_cases h0 : sc2Str w = ""
    · cases hd : w.platformDarwin
      · simp [h0, hd]
      · cases hm : w.isDir macDefaultSC2
        · simp [h0, hd, hm]
        · simp [h0, hd, hm]
    · cases hi : w.isDir (sc2Str w)
      · simp [h0, hi]
      · simp [h0, hi]
  · unfold locateEnv
    by_cases h0 : sc2Str w = ""
    · cases hd : w.platformDarwin
      · simp [h0, hd]
      · cases hm : w.isDir macDefaultSC2
        · simp [h0, hd, hm]
        · simp [h0, hd, hm]
    · cases hi : w.isDir (sc2Str w)
      · simp [h0, hi]
      · simp [h0, hi]
  · intro p hp
    unfold locateEnv at hp
    by_cases h0 : sc2Str w = ""
    · cases hd : w.platformDarwin
      · simp [h0, hd] at hp
      · cases hm : w.isDir macDefaultSC2
        · simp [h0, hd, hm] at hp
        · simp [h0, hd, hm] at hp
    · cases hi : w.isDir (sc2Str w)
      · simp [h0, hi] at hp
        exact hp.symm
      · simp [h0, hi] at hp
  · unfold locateEnv
    by_cases h0 : sc2Str w = ""
    · cases hd : w.platformDarwin
      · simp [h0, hd, exOk]
      · cases hm : w.isDir macDefaultSC2
        · simp [h0, hd, hm, exOk]
        · simp [h0, hd, hm, exOk]
    · cases hi : w.isDir (sc2Str w)
      · simp [h0, hi, exOk]
      · simp [h0, hi, exOk]

/-- Witness for C3: non-darwin platform, `SC2PATH` unset. -/
theorem C3_environment_locator_witness :
    locateEnv wNoPath = .error .environmentNotFound :=
  (C3_environment_locator wNoPath).1.mpr ⟨rfl, Or.inl rfl⟩

/-- C4: per model slot, a CLI-supplied name resolves to the name joined
to the script directory with `.pth` appended; otherwise the sentinel
`"default"` resolves to the fixed default model path; otherwise the
existing value is kept, and resolution is idempotent on resolved
values.  After resolution the existence checks run in slot order:
a missing `model1` path aborts the run with the `model1`
`ModelNotFound` error, and a missing `model2` path (with `model1`
present) aborts with the `model2` error. -/
theorem C4_model_resolution (w : World) (a : Args) :
    (∀ name, a.model1 = some name →
      resolvedModel1 w a = ospJoin w.scriptDir (name ++ ".pth")) ∧
    (a.model1 = none → w.baseConfig.actor.model_paths1 = "default" →
      resolvedModel1 w a = defaultModelPath w.scriptDir) ∧
    (a.model1 = none → w.baseConfig.actor.model_paths1 ≠ "default" →
      resolvedModel1 w a = w.baseConfig.actor.model_paths1) ∧
    (∀ name, a.model2 = some name →
      resolvedModel2 w a = ospJoin w.scriptDir (name ++ ".pth")) ∧
    (a.model2 = none → w.baseConfig.actor.model_paths2 = "default" →
      resolvedModel2 w a = defaultModelPath w.scriptDir) ∧
    (a.model2 = none → w.baseConfig.actor.model_paths2 ≠ "default" →
      resolvedModel2 w a = w.baseConfig.actor.model_paths2) ∧
    (resolveModel w.scriptDir none (resolvedModel1 w a) = resolvedModel1 w a) ∧
    (resolveModel w.scriptDir none (resolvedModel2 w a) = resolvedModel2 w a) ∧
    (exOk (locateEnv w) = true → w.pathExists (resolvedModel1 w a) = false →
      mainRun w a = .error (.modelNotFound "model1" (resolvedModel1 w a))) ∧
    (exOk (locateEnv w) = true → w.pathExists (resolvedModel1 w a) = true →
      w.pathExists (resolvedModel2 w a) = false →
      mainRun w a = .error (.modelNotFound "model2" (resolvedModel2 w a))) := by
  refine ⟨?_, ?_, ?_, ?_, ?_, ?_, ?_, ?_, ?_, ?_⟩
  · intro name hn
    unfold resolvedModel1
    rw [hn]
    exact resolveModel_some w.scriptDir name _
  · intro h1 h2
    unfold resolvedModel1
    rw [h1, h2]
    exact resolveModel_none_default w.scriptDir
  · intro h1 h2
    unfold resolvedModel1
    rw [h1]
    exact resolveModel_none_keep w.scriptDir _ h2
  · intro name hn
    unfold resolvedModel2
    rw [hn]
    exact resolveModel_some w.scriptDir name _
  · intro h1 h2
    unfold resolvedModel2
    rw [h1, h2]
    exact resolveModel_none_default w.scriptDir
  · intro h1 h2
    unfold resolvedModel2
    rw [h1]
    exact resolveModel_none_keep w.scriptDir _ h2
  · exact resolveModel_idem w.scriptDir a.model1 _
  · exact resolveModel_idem w.scriptDir a.model2 _
  · exact mainRun_err_model1 w a
  · exact mainRun_err_model2 w a

/-- Witness for C4: default-sentinel substitution, plus the `model1`
error on a world where no file exists. -/
theorem C4_model_resolution_witness :
    resolvedModel1 wOk aNone = defaultModelPath "/app" ∧
    mainRun wMiss aNone = .error (.modelNotFound "model1" (resolvedModel1 wMiss aNone)) :=
  ⟨(C4_model_resolution wOk aNone).2.1 rfl rfl,
   (C4_model_resolution wMiss aNone).2.2.2.2.2.2.2.2.1 rfl rfl⟩

/-- C5: in `agent_vs_bot` mode, on a successful run, side 1 is the raw
`--model2` string when that argument was supplied and contains `"bot"`,
and the fixed default `"bot10"` otherwise; side 0 is the first-dot-
stripped basename of the resolved `model1` path; side 1 is taken from
`botLevel`, which reads only the raw argument and never a file path. -/
theorem C5_agent_vs_bot (w : World) (a : Args) (c : UserConfig)
    (hg : a.game_type = .agent_vs_bot) (h : mainRun w a = .ok c) :
    c.env.player_ids =
      [stemOf (lastComponent (resolvedModel1 w a)), botLevel a.model2] ∧
    (∀ s, a.model2 = some s → strContains s "bot" = true → botLevel a.model2 = s) ∧
    (a.model2 = none → botLevel a.model2 = "bot10") ∧
    (∀ s, a.model2 = some s → strContains s "bot" = false →
      botLevel a.model2 = "bot10") := by
  have hc := (mainRun_ok_iff w a c).mp h
  refine ⟨?_, ?_, ?_, ?_⟩
  · rw [hc.2.2.2.2]
    exact assemble_player_ids_agent_vs_bot w a hg
  · intro s hs hbot
    have hne : s ≠ "" := by
      intro he
      subst he
      exact absurd hbot (by decide)
    simp [botLevel, hs, hne, hbot]
  · intro h2
    simp [botLevel, h2]
  · intro s hs hbot
    simp [botLevel, hs, hbot]

/-- Witness for C5: `--model2 bot7` yields side-1 identity `bot7`. -/
theorem C5_agent_vs_bot_witness :
    cBot.env.player_ids =
      [stemOf (lastComponent (resolvedModel1 wOk aBot)), botLevel aBot.model2] :=
  (C5_agent_vs_bot wOk aBot cBot rfl rfl).1

/-- C6: on every successful run the derived `player_ids` list has
exactly two entries, and in `human_vs_agent` mode it is the stripped
basename of the resolved `model1` path followed by `"human"`. -/
theorem C6_two_player_identities (w : World) (a : Args) (c : UserConfig)
    (h : mainRun w a = .ok c) :
    c.env.player_ids.length = 2 ∧
    (a.game_type = .human_vs_agent →
      c.env.player_ids = [stemOf (lastComponent (resolvedModel1 w a)), "human"]) := by
  have hc := (mainRun_ok_iff w a c).mp h
  constructor
  · rw [hc.2.2.2.2]
    cases hg : a.game_type
    · rw [assemble_player_ids_agent_vs_agent w a hg]; rfl
    · rw [assemble_player_ids_agent_vs_bot w a hg]; rfl
    · rw [assemble_player_ids_human_vs_agent w a hg]; rfl
  · intro hg
    rw [hc.2.2.2.2]
    exact assemble_player_ids_human_vs_agent w a hg

/-- Witness for C6 on a concrete default (human-vs-agent) run. -/
theorem C6_two_player_identities_witness :
    cHuman.env.player_ids = [stemOf (lastComponent (resolvedModel1 wOk aNone)), "human"] :=
  (C6_two_player_identities wOk aNone cHuman rfl).2 rfl

/-- C7 counterexample: in `human_vs_agent` mode with neither resolved
model path existing, the run does fail, but the error raised is the
`model1` `ModelNotFound` error, not the `model2` one the claim
demands. -/
theorem C7_counterexample :
    aNone.game_type = .human_vs_agent ∧
    wMiss.pathExists (resolvedModel2 wMiss aNone) = false ∧
    mainRun wMiss aNone = .error (.modelNotFound "model1" (resolvedModel1 wMiss aNone)) ∧
    mainRun wMiss aNone ≠ .error (.modelNotFound "model2" (resolvedModel2 wMiss aNone)) := by
  refine ⟨rfl, rfl, rfl, ?_⟩
  intro hco
  have h1 : mainRun wMiss aNone =
      .error (.modelNotFound "model1" (resolvedModel1 wMiss aNone)) := rfl
  rw [h1] at hco
  injection hco with h2
  injection h2 with h3 h4
  exact absurd h3 (by decide)

/-- C7 (amended): in `human_vs_agent` mode `model2` is still resolved
and existence-checked; when the resolved `model2` path is missing (and
the environment locator succeeded) the run fails — with the `model2`
`ModelNotFound` error whenever the resolved `model1` path exists, and
with the `model1` error otherwise. -/
theorem C7_model2_checked (w : World) (a : Args)
    (_hg : a.game_type = .human_vs_agent)
    (henv : exOk (locateEnv w) = true)
    (h2 : w.pathExists (resolvedModel2 w a) = false) :
    (w.pathExists (resolvedModel1 w a) = true →
      mainRun w a = .error (.modelNotFound "model2" (resolvedModel2 w a))) ∧
    (w.pathExists (resolvedModel1 w a) = false →
      mainRun w a = .error (.modelNotFound "model1" (resolvedModel1 w a))) ∧
    exOk (mainRun w a) = false := by
  refine ⟨fun h1 => mainRun_err_model2 w a henv h1 h2,
          fun h1 => mainRun_err_model1 w a henv h1, ?_⟩
  cases h1 : w.pathExists (resolvedModel1 w a)
  · rw [mainRun_err_model1 w a henv h1]; rfl
  · rw [mainRun_err_model2 w a henv h1 h2]; rfl

/-- Witness for the amended C7 on a world with no files. -/
theorem C7_model2_checked_witness :
    exOk (mainRun wMiss aNone) = false :=
  (C7_model2_checked wMiss aNone rfl rfl rfl).2.2

/-- C8: the race override writes only index 1 of the `races` sequence:
index 0 and every index other than 1 are unchanged, index 1 becomes the
requested race (when the base sequence has the two pre-populated
entries), and every other field of the configuration is untouched by
this step; accordingly, on any successful run index 0 of the final
`races` equals the base configuration's index 0 and index 1 is the
requested race — for every race value and every game type. -/
theorem C8_race_override :
    (∀ (c : UserConfig) (r : Race),
      (applyRace c r).env.races.length = c.env.races.length ∧
      (applyRace c r).env.races[0]? = c.env.races[0]? ∧
      (∀ i, i ≠ 1 → (applyRace c r).env.races[i]? = c.env.races[i]?) ∧
      (2 ≤ c.env.races.length →
        (applyRace c r).env.races[1]? = some (raceStr r)) ∧
      (applyRace c r).actor = c.actor ∧
      (applyRace c r).common = c.common ∧
      (applyRace c r).env.player_ids = c.env.player_ids ∧
      (applyRace c r).env.realtime = c.env.realtime) ∧
    (∀ (w : World) (a : Args) (c : UserConfig), mainRun w a = .ok c →
      c.env.races[0]? = w.baseConfig.env.races[0]? ∧
      c.env.races[1]? = some (raceStr a.race)) := by
  constructor
  · intro c r
    refine ⟨?_, ?_, ?_, ?_, rfl, rfl, rfl, rfl⟩
    · exact List.length_set c.env.races 1 (raceStr r)
    · exact List.getElem?_set_ne (by decide)
    · intro i hi
      exact List.getElem?_set_ne (Ne.symm hi)
    · intro hlen
      exact List.getElem?_set_eq_of_lt (raceStr r) (by omega)
  · intro w a c h
    have hc := (mainRun_ok_iff w a c).mp h
    rcases hc with ⟨he, h1, h2, h3, hceq⟩
    subst hceq
    rw [assemble_env_races]
    exact ⟨List.getElem?_set_ne (by decide),
           List.getElem?_set_eq_of_lt (raceStr a.race) (by omega)⟩

/-- Witness for C8 on a concrete successful run. -/
theorem C8_race_override_witness :
    cHuman.env.races[1]? = some (raceStr aNone.race) :=
  (C8_race_override.2 wOk aNone cHuman rfl).2

/-- C9: `Actor.run` is invoked at most once; it is invoked (with the
fully assembled configuration) exactly when every resolution step
succeeds — environment location, both model existence checks, and the
race-index write — and it is invoked zero times exactly when some step
fails; an `ok` outcome always corresponds to exactly one invocation and
an exception to none. -/
theorem C9_session_runner (w : World) (a : Args) :
    (actorInvocations w a).length ≤ 1 ∧
    (actorInvocations w a = [assemble w a] ↔
      (exOk (locateEnv w) = true ∧
       w.pathExists (resolvedModel1 w a) = true ∧
       w.pathExists (resolvedModel2 w a) = true ∧
       2 ≤ w.baseConfig.env.races.length)) ∧
    (actorInvocations w a = [] ↔
      ¬ (exOk (locateEnv w) = true ∧
         w.pathExists (resolvedModel1 w a) = true ∧
         w.pathExists (resolvedModel2 w a) = true ∧
         2 ≤ w.baseConfig.env.races.length)) ∧
    (∀ c, mainRun w a = .ok c → actorInvocations w a = [c]) ∧
    (∀ e, mainRun w a = .error e → actorInvocations w a = []) := by
  cases hm : mainRun w a with
  | ok c =>
    have hc := (mainRun_ok_iff w a c).mp hm
    rcases hc with ⟨he, h1, h2, h3, hceq⟩
    subst hceq
    refine ⟨?_, ?_, ?_, ?_, ?_⟩
    · simp [actorInvocations, hm]
    · simp [actorInvocations, hm, he, h1, h2, h3]
    · simp [actorInvocations, hm, he, h1, h2, h3]
    · intro c2 hc2
      injection hc2 with hh
      simp [actorInvocations, hm, hh]
    · intro e he2
      exact Except.noConfusion he2
  | error e =>
    have hno : ¬ (exOk (locateEnv w) = true ∧
        w.pathExists (resolvedModel1 w a) = true ∧
        w.pathExists (resolvedModel2 w a) = true ∧
        2 ≤ w.baseConfig.env.races.length) := by
      intro hx
      have hok : mainRun w a = .ok (assemble w a) :=
        (mainRun_ok_iff w a (assemble w a)).mpr
          ⟨hx.1, hx.2.1, hx.2.2.1, hx.2.2.2, rfl⟩
      rw [hm] at hok
      exact Except.noConfusion hok
    refine ⟨?_, ?_, ?_, ?_, ?_⟩
    · simp [actorInvocations, hm]
    · constructor
      · intro hx
        simp [actorInvocations, hm] at hx
      · intro hx
        exact absurd hx hno
    · simp [actorInvocations, hm, hno]
    · intro c2 hc2
      exact Except.noConfusion hc2
    · intro e2 _
      simp [actorInvocations, hm]

/-- Witness for C9 on a concrete fully-successful world. -/
theorem C9_session_runner_witness :
    actorInvocations wOk aNone = [assemble wOk aNone] :=
  (C9_session_runner wOk aNone).2.1.mpr ⟨rfl, rfl, rfl, by decide⟩

/-- C10: supplying the literal string `default` as a CLI model argument
resolves the slot to `<script-dir>/default.pth`, which is distinct from
the fixed default model path `<script-dir>/rl_model.pth`: the sentinel
substitution never applies to a CLI-supplied name, for either slot. -/
theorem C10_cli_default_arg (w : World) (a : Args) :
    (∀ v, resolveModel w.scriptDir (some "default") v =
      ospJoin w.scriptDir "default.pth") ∧
    ospJoin w.scriptDir "default.pth" ≠ defaultModelPath w.scriptDir ∧
    (∀ c, mainRun w a = .ok c → a.model1 = some "default" →
      c.actor.model_paths1 = ospJoin w.scriptDir "default.pth") ∧
    (∀ c, mainRun w a = .ok c → a.model2 = some "default" →
      c.actor.model_paths2 = ospJoin w.scriptDir "default.pth") := by
  refine ⟨?_, ?_, ?_, ?_⟩
  · intro v
    exact resolveModel_some_default w.scriptDir v
  · unfold defaultModelPath
    exact ospJoin_right_injective w.scriptDir "default.pth" "rl_model.pth"
      (by decide) (by decide) (by decide)
  · intro c h harg
    have hc := (mainRun_ok_iff w a c).mp h
    rw [hc.2.2.2.2, assemble_actor_model_paths1]
    unfold resolvedModel1
    rw [harg]
    exact resolveModel_some_default w.scriptDir _
  · intro c h harg
    have hc := (mainRun_ok_iff w a c).mp h
    rw [hc.2.2.2.2, assemble_actor_model_paths2]
    unfold resolvedModel2
    rw [harg]
    exact resolveModel_some_default w.scriptDir _

/-- Witness for C10 at a concrete script directory. -/
theorem C10_cli_default_arg_witness :
    resolveModel "/app" (some "default") "default" = ospJoin "/app" "default.pth" :=
  (C10_cli_default_arg wOk aNone).1 "default"

end Applestar
